import Mathlib

/-!
Verification development for the NocoDB MCP server repository
(`src/mcp-server-fastapi.py`, the plain HTTP front door, and
`src/nocodb_mcp_server.py`, the standard MCP front door).

The Python code is shallowly embedded:

* JSON values are modelled by the inductive `JVal`; Python dicts of
  arguments become association lists `List (String × JVal)`.
* Machine-level details of the Python standard library that the code
  calls out to are modelled by their observable outcomes: the result of
  `datetime.fromisoformat(s.replace("Z", "+00:00"))` on a timestamp
  string is either a failure (`ValueError` / `AttributeError`) or a
  `datetime` that is offset-naive or offset-aware, modelled by `PyTime`
  and the parse-outcome field `TsField` of a `Record`.  Instants are
  integers (seconds).  Comparing an offset-aware `datetime` with the
  offset-naive cutoff `datetime.now() - timedelta(hours=24)` raises
  `TypeError` in Python; the embedding models that raise explicitly.
* Fallible computations return `Option` / `Except`; `none` (or
  `.error`) models a raised Python exception at that point.
* Outbound HTTP is a pure oracle `net : HttpRequest → HttpResponse`;
  every embedded operation returns the list of requests it issued
  together with its outcome, so "no network call" is a provable
  statement about the trace.
-/

namespace NocoDBMCP

/-- Model of a Python / JSON value as it flows through the two servers:
the argument mappings of tool calls, response bodies and results. -/
inductive JVal where
  | jnull
  | jbool (b : Bool)
  | jnum (q : ℚ)
  | jstr (s : String)
  | jarr (items : List JVal)
  | jobj (fields : List (String × JVal))

/-- Python truthiness of a value (`if x:`): `None`, `False`, `0`, the
empty string and empty containers are falsy, everything else truthy. -/
def JVal.truthy : JVal → Bool
  | .jnull => false
  | .jbool b => b
  | .jnum q => q != 0
  | .jstr s => s != ""
  | .jarr items => !items.isEmpty
  | .jobj fields => !fields.isEmpty

/-- Lookup in a Python dict modelled as an association list
(`d.get(k)`, returning `None` as `none` when the key is absent). -/
def argsGet (args : List (String × JVal)) (k : String) : Option JVal :=
  match args with
  | [] => none
  | (k₀, v) :: rest => if k₀ = k then some v else argsGet rest k

/-- Backslash and quote escaping used when serializing a JSON string. -/
def jsonEscape (s : String) : String :=
  s.foldl
    (fun acc c =>
      if c = '\\' then acc ++ "\\\\"
      else if c = '\"' then acc ++ "\\\"" else acc.push c)
    ""

mutual

/-- Model of `json.dumps` with its default separators, used by the
`search_records` branches for the `where` query parameter.  (Float
formatting of non-integral numbers is approximated by the rational
notation; no claim depends on it.) -/
def JVal.dumps : JVal → String
  | .jnull => "null"
  | .jbool b => if b then "true" else "false"
  | .jnum q => if q.den = 1 then toString q.num else toString q
  | .jstr s => "\"" ++ jsonEscape s ++ "\""
  | .jarr items => "[" ++ String.intercalate ", " (dumpsList items) ++ "]"
  | .jobj fields => "\x7b" ++ String.intercalate ", " (dumpsObj fields) ++ "\x7d"

def dumpsList : List JVal → List String
  | [] => []
  | v :: vs => JVal.dumps v :: dumpsList vs

def dumpsObj : List (String × JVal) → List String
  | [] => []
  | (k, v) :: kvs => ("\"" ++ jsonEscape k ++ "\": " ++ JVal.dumps v) :: dumpsObj kvs

end

/-- Model of Python `str(x)` as used by the f-strings that build URLs
from path arguments.  For the container cases it falls back to the JSON
rendering (Python would use `repr` with single quotes; the difference
is irrelevant to every property proved here, since URLs are only built
from string arguments in the claims). -/
def JVal.pystr : JVal → String
  | .jstr s => s
  | .jnull => "None"
  | .jbool b => if b then "True" else "False"
  | v => v.dumps

/-- Model of `s.rstrip("/")` applied to the base URL. -/
def rstripSlash (s : String) : String :=
  String.mk ((s.data.reverse.dropWhile (fun c => c = '/')).reverse)

/-- A Python `datetime` as produced by `datetime.fromisoformat`: either
offset-naive or offset-aware, each carrying its instant in seconds.
Python refuses to order a naive and an aware `datetime` (`TypeError`),
which the embedding of the 24-hour comparison reflects. -/
inductive PyTime where
  | naive (t : ℤ)
  | aware (t : ℤ)
deriving DecidableEq

/-- Parse outcome of the `timestamp` field of a fetched record, i.e. of
`datetime.fromisoformat(r["timestamp"].replace("Z", "+00:00"))` guarded
by the truthiness test `if r.get("timestamp")`:

* `absent`  — the field is missing or falsy (the guard fails);
* `invalid` — the field is truthy but parsing raises `ValueError`
  (malformed string) or `AttributeError` (non-string value);
* `valid pt` — parsing yields the `datetime` `pt`. -/
inductive TsField where
  | absent
  | invalid
  | valid (pt : PyTime)
deriving DecidableEq

/-- True when the parse outcome is an offset-aware `datetime` (whose
comparison against the naive cutoff raises `TypeError`). -/
def TsField.isAware : TsField → Bool
  | .valid (.aware _) => true
  | _ => false

/-- True when the parse outcome is an offset-naive `datetime` strictly
after the cutoff `c`. -/
def TsField.naiveGt (ts : TsField) (c : ℤ) : Bool :=
  match ts with
  | .valid (.naive t) => c < t
  | _ => false

/-- Field-outcome view of one fetched row, as read by the analytics
computations of both servers: each flag is the Python truthiness of the
corresponding `r.get(...)`, `shot_type` is the value when truthy
(`none` when absent or falsy), and `timestamp` is the parse outcome
described at `TsField`.  `recordOfRow` below computes this view from a
raw `JVal` row. -/
structure Record where
  image_url : Bool
  cinematic : Bool
  anime : Bool
  sref_code : Bool
  shot_type : Option String
  timestamp : TsField
deriving DecidableEq

/-- Truthiness of `row.get(k)` on a raw JSON row (missing key is falsy). -/
def rowTruthy (row : JVal) (k : String) : Bool :=
  match row with
  | .jobj fields =>
    match argsGet fields k with
    | some v => v.truthy
    | none => false
  | _ => false

/-- Abstraction of a raw row into its `Record` of field outcomes.
`fromiso` models the external library call
`fun s => datetime.fromisoformat(s.replace("Z", "+00:00"))`, returning
`none` when it raises `ValueError`. -/
def recordOfRow (fromiso : String → Option PyTime) (row : JVal) : Record :=
  let fields := match row with | .jobj fs => fs | _ => []
  { image_url := rowTruthy row "image_url"
    cinematic := rowTruthy row "cinematic"
    anime := rowTruthy row "anime"
    sref_code := rowTruthy row "sref_code"
    shot_type :=
      match argsGet fields "shot_type" with
      | some v => if v.truthy then some v.pystr else none
      | none => none
    timestamp :=
      match argsGet fields "timestamp" with
      | some v =>
        if v.truthy then
          match v with
          | .jstr s => match fromiso s with
            | some pt => .valid pt
            | none => .invalid
          | _ => .invalid
        else .absent
      | none => .absent }

/-! ### Analytics aggregation

Embedding of the in-line analytics computation, lines 398-430 of
`src/mcp-server-fastapi.py` and lines 640-680 of
`src/nocodb_mcp_server.py`.  The two implementations build the same
counts; they differ only in the recent-24h loop, which the fastapi
variant runs without any `try`/`except` while the standard variant
catches `ValueError` and `AttributeError` (and nothing else) per
record. -/

/-- Lookup in the `shot_types` dict (`d.get(k)` without default). -/
def dictFind : List (String × Nat) → String → Option Nat
  | [], _ => none
  | (k₀, v) :: rest, k => if k₀ = k then some v else dictFind rest k

/-- Lookup with default (`d.get(k, dflt)`). -/
def dictGet (d : List (String × Nat)) (k : String) (dflt : Nat) : Nat :=
  (dictFind d k).getD dflt

/-- Assignment `d[k] = v` on a Python dict: an existing key keeps its
position, a new key is appended. -/
def dictSet : List (String × Nat) → String → Nat → List (String × Nat)
  | [], k, v => [(k, v)]
  | (k₀, w) :: rest, k, v =>
    if k₀ = k then (k₀, v) :: rest else (k₀, w) :: dictSet rest k v

/-- One iteration of the shot-type breakdown loop:
`analytics["shot_types"][st] = analytics["shot_types"].get(st, 0) + 1`
when `record.get("shot_type")` is truthy. -/
def shotStep (d : List (String × Nat)) (r : Record) : List (String × Nat) :=
  match r.shot_type with
  | some s => dictSet d s (dictGet d s 0 + 1)
  | none => d

/-- The `shot_types` dict after the breakdown loop over all records. -/
def buildShotTypes (records : List Record) : List (String × Nat) :=
  records.foldl shotStep []

/-- Sum of the occurrence counts stored in the `shot_types` dict. -/
def sumVals (d : List (String × Nat)) : Nat :=
  (d.map Prod.snd).sum

/-- One record of the recent-24h count in the standard MCP variant
(lines 659-666 of `src/nocodb_mcp_server.py`).  The accumulator is
`none` once an exception has escaped: the per-record handler catches
`ValueError` and `AttributeError` (the `invalid` outcome) but not the
`TypeError` raised when an offset-aware `datetime` is compared with the
offset-naive cutoff. -/
def recentStepStd (now : ℤ) (acc : Option Nat) (r : Record) : Option Nat :=
  acc.bind fun n =>
    match r.timestamp with
    | .absent => some n
    | .invalid => some n
    | .valid (.naive t) => some (if now - 86400 < t then n + 1 else n)
    | .valid (.aware _) => none

/-- Count `recent_24h` of the standard MCP variant: `none` models an uncaught
`TypeError` escaping the loop. -/
def recent24hStd (records : List Record) (now : ℤ) : Option Nat :=
  records.foldl (recentStepStd now) (some 0)

/-- One record of the recent-24h comprehension in the fastapi variant
(lines 416-419 of `src/mcp-server-fastapi.py`).  There is no handler at
all: both a failed parse (`ValueError` / `AttributeError`) and the
naive/aware comparison (`TypeError`) abort the whole computation. -/
def recentStepFA (now : ℤ) (acc : Option Nat) (r : Record) : Option Nat :=
  acc.bind fun n =>
    match r.timestamp with
    | .absent => some n
    | .invalid => none
    | .valid (.naive t) => some (if now - 86400 < t then n + 1 else n)
    | .valid (.aware _) => none

/-- Count `recent_24h` of the fastapi variant; `none` models an uncaught
exception escaping the list comprehension. -/
def recent24hFA (records : List Record) (now : ℤ) : Option Nat :=
  records.foldl (recentStepFA now) (some 0)

/-- The analytics dict common to both variants: the five counts and the
shot-type breakdown are computed identically (lines 398-411 fastapi,
640-654 standard); `recent_24h` is supplied by the variant. -/
structure Analytics where
  total_reactions : Nat
  with_images : Nat
  cinematic_count : Nat
  anime_count : Nat
  with_sref_codes : Nat
  shot_types : List (String × Nat)
  recent_24h : Nat
deriving DecidableEq

/-- The analytics dict given the already-computed `recent_24h` value. -/
def analyticsCore (records : List Record) (recent : Nat) : Analytics :=
  { total_reactions := records.length
    with_images := (records.filter fun r => r.image_url).length
    cinematic_count := (records.filter fun r => r.cinematic).length
    anime_count := (records.filter fun r => r.anime).length
    with_sref_codes := (records.filter fun r => r.sref_code).length
    shot_types := buildShotTypes records
    recent_24h := recent }

/-- Full analytics of the standard MCP variant; `none` when the
recent-24h loop raised an uncaught exception (in the source the counts
computed before the loop are then discarded by the escaping raise). -/
def computeAnalyticsStd (records : List Record) (now : ℤ) : Option Analytics :=
  (recent24hStd records now).map (analyticsCore records)

/-- Full analytics of the fastapi variant. -/
def computeAnalyticsFA (records : List Record) (now : ℤ) : Option Analytics :=
  (recent24hFA records now).map (analyticsCore records)

/-- Rounding of `round(x, 1)` in Python: to the nearest multiple of
one tenth, ties to even.  The Python value is an IEEE double; the
embedding computes the same rounding over exact rationals (the claims
never depend on a value where the double representation changes the
tie direction). -/
def round1 (q : ℚ) : ℚ :=
  let x := q * 10
  let f : ℤ := ⌊x⌋
  let r : ℤ :=
    if x - (f : ℚ) < 1 / 2 then f
    else if (1 : ℚ) / 2 < x - (f : ℚ) then f + 1
    else if f % 2 = 0 then f else f + 1
  (r : ℚ) / 10

/-- The derived percentage block of the `summary` object (lines 426-428
fastapi, 675-677 standard): `round(count / total * 100, 1)` guarded by
`if total > 0 else 0`. -/
structure Summary where
  cinematic_percentage : ℚ
  anime_percentage : ℚ
  sref_coverage : ℚ
deriving DecidableEq

/-- The percentages computed from an analytics dict. -/
def summaryOf (a : Analytics) : Summary :=
  { cinematic_percentage :=
      if 0 < a.total_reactions then
        round1 ((a.cinematic_count : ℚ) / (a.total_reactions : ℚ) * 100)
      else 0
    anime_percentage :=
      if 0 < a.total_reactions then
        round1 ((a.anime_count : ℚ) / (a.total_reactions : ℚ) * 100)
      else 0
    sref_coverage :=
      if 0 < a.total_reactions then
        round1 ((a.with_sref_codes : ℚ) / (a.total_reactions : ℚ) * 100)
      else 0 }

/-! ### Session manager

`MCPState.get_session` / `MCPState.close` in the fastapi variant
(lines 57-66) and `NocoDBContext.get_session` / `close_session` in the
standard variant (lines 60-71) are verbatim the same logic; one model
covers both.  A session object is identified by a fresh id and carries
the `ClientTimeout(total=30)` it was created with and its closed flag;
the context holds `Option Session` (`None` before first use). -/

/-- An `aiohttp.ClientSession` as far as the wrapper observes it. -/
structure Session where
  sid : Nat
  timeoutTotal : Nat
  closed : Bool
deriving DecidableEq

/-- Model of `get_session`: reuse the stored session unless it is absent or
closed, in which case a new session with total timeout 30 is created,
stored and returned.  `fresh` is the identity of the would-be new
session object. -/
def get_session (st : Option Session) (fresh : Nat) : Session × Option Session :=
  match st with
  | none =>
    let s : Session := ⟨fresh, 30, false⟩
    (s, some s)
  | some s =>
    if s.closed then
      let ns : Session := ⟨fresh, 30, false⟩
      (ns, some ns)
    else (s, some s)

/-- Model of `close` / `close_session`: close the session if one exists and is
open; otherwise do nothing.  (Python closes the object in place and
keeps the reference.) -/
def close_session (st : Option Session) : Option Session :=
  match st with
  | none => none
  | some s => if !s.closed then some { s with closed := true } else some s

/-! ### Request dispatcher (plain HTTP front door)

Embedding of `execute_tool` (lines 243-261) and `execute_nocodb_tool`
(lines 263-433) of `src/mcp-server-fastapi.py`, plus the two standard
MCP tools the claims exercise.  The network is a pure oracle
`net : HttpRequest → HttpResponse`; each embedded operation returns the
list of requests it issued together with its outcome. -/

/-- One outbound HTTP request as shaped by the wrappers. -/
structure HttpRequest where
  method : String
  url : String
  params : List (String × JVal) := []
  jsonBody : Option JVal := none
  headers : List (String × JVal) := []

/-- The remote answer: its status code and, when the body is valid
JSON, the parsed value (`none` models an empty or non-JSON body, on
which `response.json()` raises). -/
structure HttpResponse where
  status : Nat
  body : Option JVal

/-- The exceptions that can escape the tool body into the dispatch
boundary of `/call`. -/
inductive ToolError where
  /-- Raised by `raise HTTPException(status_code, detail)` inside the handler. -/
  | httpEx (status : Nat) (detail : String)
  /-- Raised by `args["k"]` on a missing key (`KeyError`). -/
  | keyError (k : String)
  /-- Raised by `response.raise_for_status()` on a status of 400 and above
  (`aiohttp.ClientResponseError`). -/
  | httpStatusError (status : Nat)
  /-- Raised by `response.json()` on an empty or non-JSON body. -/
  | jsonParseError
  /-- An exception escaping the analytics computation (`ValueError` on
  an unparsable timestamp, `TypeError` on a naive/aware comparison). -/
  | pyException
deriving DecidableEq

/-- Model of `response.raise_for_status()`. -/
def raiseForStatus (resp : HttpResponse) : Except ToolError Unit :=
  if 400 ≤ resp.status then .error (.httpStatusError resp.status) else .ok ()

/-- Model of `await response.json()`. -/
def respJson (resp : HttpResponse) : Except ToolError JVal :=
  match resp.body with
  | some v => .ok v
  | none => .error .jsonParseError

/-- The process-wide configuration read from the environment at
startup: `NOCODB_URL` (with its fixed fallback) and the optional
`NOCODB_API_TOKEN`.  The session reference it also owns is modelled
separately by `get_session` / `close_session` and issues no HTTP
request, so it does not appear in the dispatcher trace. -/
structure MCPState where
  nocodb_url : String := "https://nocodb.v1su4.com"
  api_token : Option String := none

/-- The headers dict built once at the top of `execute_nocodb_tool`. -/
def faHeaders (apiToken : JVal) : List (String × JVal) :=
  [("Content-Type", .jstr "application/json"), ("xc-auth", apiToken)]

/-- The fixed `table_schema` literal of the
`nocodb_create_discord_reactions_table` branch (identical in both
variants). -/
def reactionsTableSchema : JVal :=
  .jobj [
    ("table_name", .jstr "discord_heart_reactions"),
    ("title", .jstr "Discord Heart Reactions"),
    ("columns", .jarr [
      .jobj [("column_name", .jstr "message_content"), ("title", .jstr "Message Content"),
             ("uidt", .jstr "Text"), ("required", .jbool true)],
      .jobj [("column_name", .jstr "sref_code"), ("title", .jstr "SREF Code"),
             ("uidt", .jstr "SingleLineText")],
      .jobj [("column_name", .jstr "image_url"), ("title", .jstr "Image URL"),
             ("uidt", .jstr "URL")],
      .jobj [("column_name", .jstr "cinematic"), ("title", .jstr "Cinematic"),
             ("uidt", .jstr "Checkbox"), ("default", .jbool false)],
      .jobj [("column_name", .jstr "anime"), ("title", .jstr "Anime"),
             ("uidt", .jstr "Checkbox"), ("default", .jbool false)],
      .jobj [("column_name", .jstr "colors"), ("title", .jstr "Colors"),
             ("uidt", .jstr "Text")],
      .jobj [("column_name", .jstr "shot_type"), ("title", .jstr "Shot Type"),
             ("uidt", .jstr "SingleLineText")],
      .jobj [("column_name", .jstr "mood"), ("title", .jstr "Mood"),
             ("uidt", .jstr "SingleLineText")],
      .jobj [("column_name", .jstr "style"), ("title", .jstr "Style"),
             ("uidt", .jstr "SingleLineText")],
      .jobj [("column_name", .jstr "subject"), ("title", .jstr "Subject"),
             ("uidt", .jstr "Text")],
      .jobj [("column_name", .jstr "discord_message_id"), ("title", .jstr "Discord Message ID"),
             ("uidt", .jstr "SingleLineText"), ("required", .jbool true), ("unique", .jbool true)],
      .jobj [("column_name", .jstr "discord_channel_id"), ("title", .jstr "Discord Channel ID"),
             ("uidt", .jstr "SingleLineText"), ("required", .jbool true)],
      .jobj [("column_name", .jstr "timestamp"), ("title", .jstr "Timestamp"),
             ("uidt", .jstr "DateTime"), ("required", .jbool true)]])]

/-- The analytics result object returned by the fastapi
`nocodb_get_analytics` branch (lines 421-430). -/
def analyticsResponse (a : Analytics) : JVal :=
  .jobj [
    ("success", .jbool true),
    ("analytics", .jobj [
      ("total_reactions", .jnum a.total_reactions),
      ("with_images", .jnum a.with_images),
      ("cinematic_count", .jnum a.cinematic_count),
      ("anime_count", .jnum a.anime_count),
      ("with_sref_codes", .jnum a.with_sref_codes),
      ("shot_types", .jobj (a.shot_types.map fun kv => (kv.1, JVal.jnum kv.2))),
      ("recent_24h", .jnum a.recent_24h)]),
    ("summary", .jobj [
      ("message", .jstr ("📊 " ++ toString a.total_reactions ++ " total reactions, "
        ++ toString a.with_images ++ " with images, "
        ++ toString a.recent_24h ++ " in last 24h")),
      ("cinematic_percentage", .jnum (summaryOf a).cinematic_percentage),
      ("anime_percentage", .jnum (summaryOf a).anime_percentage),
      ("sref_coverage", .jnum (summaryOf a).sref_coverage)])]

/-- Model of `execute_nocodb_tool(tool_name, args, api_token)` — the if/elif
dispatch over the fixed operation set, lines 263-433 of
`src/mcp-server-fastapi.py`.  `fromiso` and `now` model the ambient
standard library (`datetime.fromisoformat` composed with the
`Z → +00:00` replacement, and `datetime.now()` as seconds); the session
acquired on entry performs no request and is modelled separately.
If a caller-supplied `url` argument is present the source calls
`.rstrip("/")` directly on it; the embedding renders it with `pystr`
first (a non-string `url` would raise in Python — no claim passes
one). -/
def executeNocodbTool (net : HttpRequest → HttpResponse)
    (fromiso : String → Option PyTime) (now : ℤ) (st : MCPState)
    (toolName : String) (args : List (String × JVal)) (apiToken : JVal) :
    List HttpRequest × Except ToolError JVal :=
  let headers := faHeaders apiToken
  let base_url := rstripSlash ((argsGet args "url").getD (.jstr st.nocodb_url)).pystr
  if toolName = "nocodb_test_connection" then
    let req : HttpRequest :=
      { method := "GET", url := base_url ++ "/api/v1/db/meta/projects", headers := headers }
    let resp := net req
    ([req],
      if resp.status ≠ 200 then .error (.httpEx resp.status "Connection failed")
      else respJson resp)
  else if toolName = "nocodb_list_projects" then
    let req : HttpRequest :=
      { method := "GET", url := base_url ++ "/api/v1/db/meta/projects", headers := headers }
    let resp := net req
    ([req], do _ ← raiseForStatus resp; respJson resp)
  else if toolName = "nocodb_list_tables" then
    match argsGet args "project_id" with
    | none => ([], .error (.keyError "project_id"))
    | some pid =>
      let req : HttpRequest :=
        { method := "GET",
          url := base_url ++ "/api/v1/db/meta/projects/" ++ pid.pystr ++ "/tables",
          headers := headers }
      let resp := net req
      ([req], do _ ← raiseForStatus resp; respJson resp)
  else if toolName = "nocodb_get_records" then
    match argsGet args "project_id" with
    | none => ([], .error (.keyError "project_id"))
    | some pid =>
      match argsGet args "table_id" with
      | none => ([], .error (.keyError "table_id"))
      | some tid =>
        let params : List (String × JVal) :=
          [("limit", (argsGet args "limit").getD (.jnum 10)),
           ("offset", (argsGet args "offset").getD (.jnum 0))]
        let req : HttpRequest :=
          { method := "GET",
            url := base_url ++ "/api/v1/db/data/noco/" ++ pid.pystr ++ "/" ++ tid.pystr,
            params := params, headers := headers }
        let resp := net req
        ([req], do _ ← raiseForStatus resp; respJson resp)
  else if toolName = "nocodb_create_record" then
    match argsGet args "project_id" with
    | none => ([], .error (.keyError "project_id"))
    | some pid =>
      match argsGet args "table_id" with
      | none => ([], .error (.keyError "table_id"))
      | some tid =>
        match argsGet args "record_data" with
        | none => ([], .error (.keyError "record_data"))
        | some recordData =>
          let req : HttpRequest :=
            { method := "POST",
              url := base_url ++ "/api/v1/db/data/noco/" ++ pid.pystr ++ "/" ++ tid.pystr,
              jsonBody := some recordData, headers := headers }
          let resp := net req
          ([req], do _ ← raiseForStatus resp; respJson resp)
  else if toolName = "nocodb_search_records" then
    match argsGet args "project_id" with
    | none => ([], .error (.keyError "project_id"))
    | some pid =>
      match argsGet args "table_id" with
      | none => ([], .error (.keyError "table_id"))
      | some tid =>
        let filters := (argsGet args "filters").getD (.jobj [])
        let params : List (String × JVal) := [("where", .jstr filters.dumps)]
        let req : HttpRequest :=
          { method := "GET",
            url := base_url ++ "/api/v1/db/data/noco/" ++ pid.pystr ++ "/" ++ tid.pystr,
            params := params, headers := headers }
        let resp := net req
        ([req], do _ ← raiseForStatus resp; respJson resp)
  else if toolName = "nocodb_update_record" then
    match argsGet args "project_id" with
    | none => ([], .error (.keyError "project_id"))
    | some pid =>
      match argsGet args "table_id" with
      | none => ([], .error (.keyError "table_id"))
      | some tid =>
        match argsGet args "record_id" with
        | none => ([], .error (.keyError "record_id"))
        | some rid =>
          match argsGet args "record_data" with
          | none => ([], .error (.keyError "record_data"))
          | some recordData =>
            let req : HttpRequest :=
              { method := "PATCH",
                url := base_url ++ "/api/v1/db/data/noco/" ++ pid.pystr ++ "/"
                  ++ tid.pystr ++ "/" ++ rid.pystr,
                jsonBody := some recordData, headers := headers }
            let resp := net req
            ([req], do _ ← raiseForStatus resp; respJson resp)
  else if toolName = "nocodb_delete_record" then
    match argsGet args "project_id" with
    | none => ([], .error (.keyError "project_id"))
    | some pid =>
      match argsGet args "table_id" with
      | none => ([], .error (.keyError "table_id"))
      | some tid =>
        match argsGet args "record_id" with
        | none => ([], .error (.keyError "record_id"))
        | some rid =>
          let req : HttpRequest :=
            { method := "DELETE",
              url := base_url ++ "/api/v1/db/data/noco/" ++ pid.pystr ++ "/"
                ++ tid.pystr ++ "/" ++ rid.pystr,
              headers := headers }
          let resp := net req
          ([req], do
            _ ← raiseForStatus resp
            pure (.jobj [("message", .jstr "Record deleted successfully")]))
  else if toolName = "nocodb_create_discord_reactions_table" then
    match argsGet args "project_id" with
    | none => ([], .error (.keyError "project_id"))
    | some pid =>
      let req : HttpRequest :=
        { method := "POST",
          url := base_url ++ "/api/v1/db/meta/projects/" ++ pid.pystr ++ "/tables",
          jsonBody := some reactionsTableSchema, headers := headers }
      let resp := net req
      ([req], do _ ← raiseForStatus resp; respJson resp)
  else if toolName = "nocodb_get_analytics" then
    match argsGet args "project_id" with
    | none => ([], .error (.keyError "project_id"))
    | some pid =>
      match argsGet args "table_id" with
      | none => ([], .error (.keyError "table_id"))
      | some tid =>
        let req : HttpRequest :=
          { method := "GET",
            url := base_url ++ "/api/v1/db/data/noco/" ++ pid.pystr ++ "/"
              ++ tid.pystr ++ "?limit=1000",
            headers := headers }
        let resp := net req
        ([req], do
          _ ← raiseForStatus resp
          let data ← respJson resp
          let rows :=
            match data with
            | .jobj fields =>
              match argsGet fields "list" with
              | some (.jarr items) => items
              | _ => []
            | _ => []
          let recs := rows.map (recordOfRow fromiso)
          match computeAnalyticsFA recs now with
          | some a => pure (analyticsResponse a)
          | none => .error .pyException)
  else
    ([], .error (.httpEx 400 ("Unknown tool: " ++ toolName)))

/-- The parsed body of `POST /call`. -/
structure ToolCall where
  name : String
  arguments : List (String × JVal)

/-- What `/call` sends back: the HTTP status line plus the
`MCPResponse` body.  The source stringifies the caught exception into
`error`; the embedding keeps the structured exception (the claims are
about the class of failure and the status, not the rendered text). -/
structure CallResponse where
  httpStatus : Nat
  success : Bool
  result : Option JVal
  err : Option ToolError

/-- Model of `execute_tool` behind `POST /call` (lines 243-261).  The whole
body, including the `HTTPException(400)` raised when no API token is
available, sits inside `try: ... except Exception:` — every failure is
therefore caught in-function and answered with HTTP 200 and
`success: false`; the registered `HTTPException` handler never sees
it. -/
def executeTool (net : HttpRequest → HttpResponse)
    (fromiso : String → Option PyTime) (now : ℤ) (st : MCPState)
    (call : ToolCall) : List HttpRequest × CallResponse :=
  let apiToken : JVal :=
    match argsGet call.arguments "api_token" with
    | some v => v
    | none => match st.api_token with | some s => .jstr s | none => .jnull
  if !apiToken.truthy then
    ([], { httpStatus := 200, success := false, result := none,
           err := some (.httpEx 400 "API token required") })
  else
    match executeNocodbTool net fromiso now st call.name call.arguments apiToken with
    | (trace, .ok v) =>
      (trace, { httpStatus := 200, success := true, result := some v, err := none })
    | (trace, .error e) =>
      (trace, { httpStatus := 200, success := false, result := none, err := some e })

/-! ### Standard MCP front door (the tools the claims exercise)

The standard variant registers one async function per operation; each
returns a JSON object (serialized with `json.dumps` in the source; the
embedding keeps the `JVal`).  The lifespan context carries the base URL
and the mandatory token. -/

/-- The lifespan context of `src/nocodb_mcp_server.py` (the process
fails fast at startup when `NOCODB_API_TOKEN` is absent, so the token
is always present here). -/
structure NocoDBContext where
  nocodb_url : String
  api_token : String

/-- The headers dict of the standard variant. -/
def stdHeaders (token : String) : List (String × JVal) :=
  [("xc-token", .jstr token)]

/-- Approximation of `str(e)` for the exception texts interpolated into
the `error` fields of the standard variant (the exact Python rendering
is not modelled; no claim depends on it). -/
def ToolError.pymsg : ToolError → String
  | .httpEx s d => toString s ++ ": " ++ d
  | .keyError k => k
  | .httpStatusError s => toString s
  | .jsonParseError => "response body is not JSON"
  | .pyException => "uncaught exception"

/-- Model of `nocodb_get_records` of the standard variant (lines 337-378).  The
Lean default arguments mirror the Python defaults `limit=10`,
`offset=0`; `nowIso` models `datetime.now().isoformat()`. -/
def nocodb_get_records_std (net : HttpRequest → HttpResponse)
    (ctx : NocoDBContext) (nowIso : String) (project_id table_id : String)
    (limit : ℤ := 10) (offset : ℤ := 0) : List HttpRequest × JVal :=
  let headers := stdHeaders ctx.api_token
  let params : List (String × JVal) := [("limit", .jnum limit), ("offset", .jnum offset)]
  let req : HttpRequest :=
    { method := "GET",
      url := ctx.nocodb_url ++ "/api/v1/db/data/noco/" ++ project_id ++ "/" ++ table_id,
      params := params, headers := headers }
  let resp := net req
  let outcome : Except ToolError JVal := do _ ← raiseForStatus resp; respJson resp
  ([req],
    match outcome with
    | .ok data =>
      .jobj [("success", .jbool true), ("project_id", .jstr project_id),
             ("table_id", .jstr table_id), ("records", data),
             ("timestamp", .jstr nowIso)]
    | .error e =>
      .jobj [("success", .jbool false),
             ("error", .jstr ("Failed to get records: " ++ e.pymsg))])

/-- Model of `nocodb_delete_record` of the standard variant (lines 468-505): on
a passing `raise_for_status` it returns the fixed confirmation object
without ever calling `response.json()`. -/
def nocodb_delete_record_std (net : HttpRequest → HttpResponse)
    (ctx : NocoDBContext) (nowIso : String)
    (project_id table_id record_id : String) : List HttpRequest × JVal :=
  let headers := stdHeaders ctx.api_token
  let req : HttpRequest :=
    { method := "DELETE",
      url := ctx.nocodb_url ++ "/api/v1/db/data/noco/" ++ project_id ++ "/"
        ++ table_id ++ "/" ++ record_id,
      headers := headers }
  let resp := net req
  ([req],
    match raiseForStatus resp with
    | .ok _ =>
      .jobj [("success", .jbool true), ("project_id", .jstr project_id),
             ("table_id", .jstr table_id), ("record_id", .jstr record_id),
             ("message", .jstr "Record deleted successfully"),
             ("timestamp", .jstr nowIso)]
    | .error e =>
      .jobj [("success", .jbool false),
             ("error", .jstr ("Failed to delete record: " ++ e.pymsg))])

/-! ### Helper lemmas -/

/-- A record whose timestamp aborts the fastapi recent-24h
comprehension: a failed parse or an offset-aware comparison. -/
def TsField.abortsFA : TsField → Bool
  | .invalid => true
  | .valid (.aware _) => true
  | _ => false

/-- Number of records whose truthy `shot_type` equals `k`. -/
def countShot (records : List Record) (k : String) : Nat :=
  records.countP fun r => decide (r.shot_type = some k)

@[simp] lemma isAware_absent : TsField.absent.isAware = false := rfl

@[simp] lemma isAware_invalid : TsField.invalid.isAware = false := rfl

@[simp] lemma isAware_naive (t : ℤ) : (TsField.valid (.naive t)).isAware = false := rfl

@[simp] lemma isAware_aware (t : ℤ) : (TsField.valid (.aware t)).isAware = true := rfl

@[simp] lemma abortsFA_absent : TsField.absent.abortsFA = false := rfl

@[simp] lemma abortsFA_invalid : TsField.invalid.abortsFA = true := rfl

@[simp] lemma abortsFA_naive (t : ℤ) : (TsField.valid (.naive t)).abortsFA = false := rfl

@[simp] lemma abortsFA_aware (t : ℤ) : (TsField.valid (.aware t)).abortsFA = true := rfl

@[simp] lemma naiveGt_absent (c : ℤ) : TsField.absent.naiveGt c = false := rfl

@[simp] lemma naiveGt_invalid (c : ℤ) : TsField.invalid.naiveGt c = false := rfl

@[simp] lemma naiveGt_naive (t c : ℤ) :
    (TsField.valid (.naive t)).naiveGt c = decide (c < t) := rfl

@[simp] lemma naiveGt_aware (t c : ℤ) : (TsField.valid (.aware t)).naiveGt c = false := rfl

lemma foldl_recentStepStd_none (now : ℤ) (l : List Record) :
    l.foldl (recentStepStd now) none = none := by
  induction l with
  | nil => rfl
  | cons r rs ih => simpa [recentStepStd] using ih

lemma foldl_recentStepFA_none (now : ℤ) (l : List Record) :
    l.foldl (recentStepFA now) none = none := by
  induction l with
  | nil => rfl
  | cons r rs ih => simpa [recentStepFA] using ih

lemma foldl_recentStepStd_some (now : ℤ) (l : List Record) (n : Nat) :
    l.foldl (recentStepStd now) (some n) =
      if l.countP (fun r => r.timestamp.isAware) = 0 then
        some (n + l.countP fun r => r.timestamp.naiveGt (now - 86400))
      else none := by
  induction l generalizing n with
  | nil => simp
  | cons r rs ih =>
    rcases hts : r.timestamp with _ | _ | pt
    · simp [recentStepStd, hts, ih, List.countP_cons]
    · simp [recentStepStd, hts, ih, List.countP_cons]
    · rcases pt with t | t
      · simp [recentStepStd, hts, ih, List.countP_cons]
        by_cases hc : now - 86400 < t <;>
          simp [hc] <;> split_ifs <;> first | rfl | (congr 1; omega)
      · simp [recentStepStd, hts, foldl_recentStepStd_none, List.countP_cons]

lemma foldl_recentStepFA_some (now : ℤ) (l : List Record) (n : Nat) :
    l.foldl (recentStepFA now) (some n) =
      if l.countP (fun r => r.timestamp.abortsFA) = 0 then
        some (n + l.countP fun r => r.timestamp.naiveGt (now - 86400))
      else none := by
  induction l generalizing n with
  | nil => simp
  | cons r rs ih =>
    rcases hts : r.timestamp with _ | _ | pt
    · simp [recentStepFA, hts, ih, List.countP_cons]
    · simp [recentStepFA, hts, foldl_recentStepFA_none, List.countP_cons]
    · rcases pt with t | t
      · simp [recentStepFA, hts, ih, List.countP_cons]
        by_cases hc : now - 86400 < t <;>
          simp [hc] <;> split_ifs <;> first | rfl | (congr 1; omega)
      · simp [recentStepFA, hts, foldl_recentStepFA_none, List.countP_cons]

lemma recent24hStd_char (l : List Record) (now : ℤ) :
    recent24hStd l now =
      if l.countP (fun r => r.timestamp.isAware) = 0 then
        some (l.countP fun r => r.timestamp.naiveGt (now - 86400))
      else none := by
  simpa using foldl_recentStepStd_some now l 0

lemma recent24hFA_char (l : List Record) (now : ℤ) :
    recent24hFA l now =
      if l.countP (fun r => r.timestamp.abortsFA) = 0 then
        some (l.countP fun r => r.timestamp.naiveGt (now - 86400))
      else none := by
  simpa using foldl_recentStepFA_some now l 0

lemma dictFind_dictSet_self (d : List (String × Nat)) (k : String) (v : Nat) :
    dictFind (dictSet d k v) k = some v := by
  induction d with
  | nil => simp [dictSet, dictFind]
  | cons p rest ih =>
    obtain ⟨k₀, w⟩ := p
    by_cases h : k₀ = k
    · simp [dictSet, dictFind, h]
    · simp [dictSet, dictFind, h, ih]

lemma dictFind_dictSet_ne (d : List (String × Nat)) {k k' : String} (v : Nat)
    (h : k ≠ k') : dictFind (dictSet d k v) k' = dictFind d k' := by
  induction d with
  | nil => simp [dictSet, dictFind, h]
  | cons p rest ih =>
    obtain ⟨k₀, w⟩ := p
    by_cases h₀ : k₀ = k
    · subst h₀; simp [dictSet, dictFind, h]
    · simp [dictSet, dictFind, h₀, ih]

lemma mem_dictSet {d : List (String × Nat)} {k : String} {v : Nat}
    {p : String × Nat} (hp : p ∈ dictSet d k v) : p.2 = v ∨ p ∈ d := by
  induction d with
  | nil =>
    simp [dictSet] at hp
    subst hp; exact Or.inl rfl
  | cons q rest ih =>
    obtain ⟨k₀, w⟩ := q
    by_cases h : k₀ = k
    · simp [dictSet, h] at hp
      rcases hp with hp | hp
      · subst hp; exact Or.inl rfl
      · exact Or.inr (List.mem_cons_of_mem _ hp)
    · simp [dictSet, h] at hp
      rcases hp with hp | hp
      · subst hp; exact Or.inr (List.mem_cons_self _ _)
      · rcases ih hp with h2 | h2
        · exact Or.inl h2
        · exact Or.inr (List.mem_cons_of_mem _ h2)

lemma sumVals_cons (k : String) (v : Nat) (d : List (String × Nat)) :
    sumVals ((k, v) :: d) = v + sumVals d := by
  simp [sumVals]

lemma sumVals_dictSet (d : List (String × Nat)) (k : String) :
    sumVals (dictSet d k (dictGet d k 0 + 1)) = sumVals d + 1 := by
  induction d with
  | nil => simp [dictSet, dictGet, dictFind, sumVals]
  | cons p rest ih =>
    obtain ⟨k₀, w⟩ := p
    by_cases h : k₀ = k
    · simp [dictSet, dictGet, dictFind, h, sumVals_cons]
      omega
    · simp only [dictSet, dictGet, dictFind, h, if_false, sumVals_cons]
      have : dictGet rest k 0 = (dictFind rest k).getD 0 := rfl
      simp [dictGet] at ih
      omega

lemma foldl_shotStep_sum (l : List Record) (d : List (String × Nat)) :
    sumVals (l.foldl shotStep d) =
      sumVals d + l.countP (fun r => r.shot_type.isSome) := by
  induction l generalizing d with
  | nil => simp
  | cons r rs ih =>
    rcases hst : r.shot_type with _ | s
    · simp [shotStep, hst, ih, List.countP_cons]
    · simp only [List.foldl_cons, shotStep, hst, ih, sumVals_dictSet,
        List.countP_cons, Option.isSome_some]
      simp
      omega

lemma foldl_shotStep_mem (l : List Record) (d : List (String × Nat))
    (hd : ∀ p ∈ d, 1 ≤ p.2) : ∀ p ∈ l.foldl shotStep d, 1 ≤ p.2 := by
  induction l generalizing d with
  | nil => simpa using hd
  | cons r rs ih =>
    intro p hp
    rcases hst : r.shot_type with _ | s
    · exact ih d hd p (by simpa [shotStep, hst] using hp)
    · refine ih _ ?_ p (by simpa [shotStep, hst] using hp)
      intro q hq
      rcases mem_dictSet hq with h | h
      · omega
      · exact hd q h

lemma foldl_shotStep_find (l : List Record) (d : List (String × Nat)) (k : String) :
    dictFind (l.foldl shotStep d) k =
      match dictFind d k with
      | some v => some (v + countShot l k)
      | none => if countShot l k = 0 then none else some (countShot l k) := by
  induction l generalizing d with
  | nil => cases h : dictFind d k <;> simp [countShot, h]
  | cons r rs ih =>
    rcases hst : r.shot_type with _ | s
    · rw [List.foldl_cons]
      simp only [shotStep, hst]
      rw [ih]
      have : countShot (r :: rs) k = countShot rs k := by
        simp [countShot, List.countP_cons, hst]
      rw [this]
    · by_cases hks : s = k
      · subst hks
        rw [List.foldl_cons]
        simp only [shotStep, hst]
        rw [ih, dictFind_dictSet_self]
        have hc : countShot (r :: rs) s = countShot rs s + 1 := by
          simp [countShot, List.countP_cons, hst]
        rw [hc]
        cases h : dictFind d s <;> simp [dictGet, h] <;> omega
      · rw [List.foldl_cons]
        simp only [shotStep, hst]
        rw [ih, dictFind_dictSet_ne _ _ hks]
        have : countShot (r :: rs) k = countShot rs k := by
          simp [countShot, List.countP_cons, hst, hks]
        rw [this]

lemma buildShotTypes_find (l : List Record) (k : String) :
    dictFind (buildShotTypes l) k =
      if countShot l k = 0 then none else some (countShot l k) := by
  simpa [buildShotTypes, dictFind] using foldl_shotStep_find l [] k

/-! ### Concrete record fixtures used by witnesses and counterexamples -/

/-- A fetched row with no truthy field at all (timestamp missing). -/
def recAbsent : Record :=
  { image_url := false, cinematic := false, anime := false, sref_code := false,
    shot_type := none, timestamp := .absent }

/-- A row whose timestamp is present but unparsable
(e.g. `"not-a-date"`). -/
def recInvalid : Record :=
  { image_url := false, cinematic := false, anime := false, sref_code := false,
    shot_type := none, timestamp := .invalid }

/-- A row whose timestamp parses to the offset-naive instant `t`. -/
def recNaive (t : ℤ) : Record :=
  { image_url := false, cinematic := false, anime := false, sref_code := false,
    shot_type := none, timestamp := .valid (.naive t) }

/-- A row whose timestamp parses to the offset-aware instant `t`
(e.g. an ISO string with a trailing `Z`). -/
def recAware (t : ℤ) : Record :=
  { image_url := false, cinematic := false, anime := false, sref_code := false,
    shot_type := none, timestamp := .valid (.aware t) }

/-- A row marked cinematic, with no timestamp. -/
def recCin : Record :=
  { image_url := false, cinematic := true, anime := false, sref_code := false,
    shot_type := none, timestamp := .absent }

/-- A row with a truthy `shot_type`, an image and an sref code. -/
def recShot (s : String) : Record :=
  { image_url := true, cinematic := false, anime := false, sref_code := true,
    shot_type := some s, timestamp := .absent }

/-! ### Claims -/

/-- Claim C1, amended.  In both front-door variants a record whose
`timestamp` field is absent (or falsy) is excluded from the `recent_24h`
count without error.  A record whose timestamp is present but
unparsable is excluded without error in the standard MCP variant only,
whose per-record handler catches the `ValueError` / `AttributeError`;
in the plain-HTTP (fastapi) variant the comprehension has no handler,
so the parse failure aborts the whole recent-24h computation (modelled
by `none`). -/
theorem c1_timestamp_exclusion :
    (∀ (l1 l2 : List Record) (r : Record) (now : ℤ),
      r.timestamp = .absent ∨ r.timestamp = .invalid →
      recent24hStd (l1 ++ r :: l2) now = recent24hStd (l1 ++ l2) now) ∧
    (∀ (l1 l2 : List Record) (r : Record) (now : ℤ),
      r.timestamp = .absent →
      recent24hFA (l1 ++ r :: l2) now = recent24hFA (l1 ++ l2) now) ∧
    (∀ (l : List Record) (now : ℤ),
      (∀ r ∈ l, r.timestamp = .absent ∨ r.timestamp = .invalid) →
      computeAnalyticsStd l now = some (analyticsCore l 0)) ∧
    (∀ (l1 l2 : List Record) (r : Record) (now : ℤ),
      r.timestamp = .invalid →
      recent24hFA (l1 ++ r :: l2) now = none) := by
  refine ⟨?_, ?_, ?_, ?_⟩
  · intro l1 l2 r now h
    rcases h with h | h <;>
      simp [recent24hStd_char, List.countP_append, List.countP_cons, h]
  · intro l1 l2 r now h
    simp [recent24hFA_char, List.countP_append, List.countP_cons, h]
  · intro l now h
    have h1 : l.countP (fun r => r.timestamp.isAware) = 0 := by
      rw [List.countP_eq_zero]
      intro a ha
      rcases h a ha with h2 | h2 <;> simp [h2]
    have h2 : (l.countP fun r => r.timestamp.naiveGt (now - 86400)) = 0 := by
      rw [List.countP_eq_zero]
      intro a ha
      rcases h a ha with h3 | h3 <;> simp [h3]
    simp [computeAnalyticsStd, recent24hStd_char, h1, h2]
  · intro l1 l2 r now h
    simp [recent24hFA_char, List.countP_append, List.countP_cons, h]

/-- Claim C1, witness: a concrete batch where an absent-timestamp
record is dropped from the standard recent-24h count. -/
theorem c1_timestamp_exclusion_witness :
    (recAbsent.timestamp = .absent ∨ recAbsent.timestamp = .invalid) ∧
    recent24hStd [recNaive 0, recAbsent] 5 = recent24hStd [recNaive 0] 5 :=
  ⟨Or.inl rfl, c1_timestamp_exclusion.1 [recNaive 0] [] recAbsent 5 (Or.inl rfl)⟩

/-- Claim C1, counterexample to the claim as stated: on a batch whose
single record has a present but unparsable timestamp, the fastapi
variant does not complete — the `ValueError` escapes the comprehension
(modelled by `none`) — while the standard variant completes with the
record excluded.  So the exclusion-without-error property does not hold
in both front-door variants. -/
theorem c1_fastapi_raises :
    computeAnalyticsFA [recInvalid] 0 = none ∧
    computeAnalyticsStd [recInvalid] 0 = some (analyticsCore [recInvalid] 0) :=
  ⟨rfl, rfl⟩

/-- Claim C4.  For offset-naive parsed timestamps the code behaves
exactly as claimed: a record at exactly `now - 24h` is excluded (the
comparison is strict) and any later record is counted.  But a record
whose timestamp parses to an offset-aware instant — which is what the
`Z → +00:00` replacement is there to produce — cannot be compared with
the offset-naive cutoff `datetime.now() - timedelta(hours=24)`: Python
raises `TypeError`, which neither variant catches (the standard variant
catches only `ValueError` and `AttributeError`), so the whole
computation aborts (modelled by `none`) instead of counting the
record.  The first two conjuncts evaluate the code at the failing
input, a record at `now - 23h59m` written as an aware/UTC timestamp. -/
theorem c4_boundary :
    recent24hStd [recAware (-86340)] 0 = none ∧
    recent24hFA [recAware (-86340)] 0 = none ∧
    (∀ (l1 l2 : List Record) (r : Record) (now t : ℤ),
      r.timestamp = .valid (.naive t) → t ≤ now - 86400 →
      recent24hStd (l1 ++ r :: l2) now = recent24hStd (l1 ++ l2) now ∧
      recent24hFA (l1 ++ r :: l2) now = recent24hFA (l1 ++ l2) now) ∧
    (∀ (l1 l2 : List Record) (r : Record) (now t : ℤ),
      r.timestamp = .valid (.naive t) → now - 86400 < t →
      recent24hStd (l1 ++ r :: l2) now = (recent24hStd (l1 ++ l2) now).map (· + 1) ∧
      recent24hFA (l1 ++ r :: l2) now = (recent24hFA (l1 ++ l2) now).map (· + 1)) := by
  refine ⟨rfl, rfl, ?_, ?_⟩
  · intro l1 l2 r now t hts hle
    have hnc : ¬ (now - 86400 < t) := not_lt.mpr hle
    constructor <;>
      simp [recent24hStd_char, recent24hFA_char, List.countP_append,
        List.countP_cons, hts, hnc]
  · intro l1 l2 r now t hts hc
    constructor <;>
      · simp [recent24hStd_char, recent24hFA_char, List.countP_append,
          List.countP_cons, hts, hc]
        split_ifs <;> first | rfl | simp | (congr 1; omega)

/-- Claim C4, witness: a concrete naive record at `now - 23h59m` is
counted. -/
theorem c4_boundary_witness :
    (recNaive (-86340)).timestamp = .valid (.naive (-86340)) ∧
    ((0 : ℤ) - 86400 < -86340) ∧
    recent24hStd [recNaive (-86340)] 0 = (recent24hStd [] 0).map (· + 1) :=
  ⟨rfl, by decide,
    (c4_boundary.2.2.2 [] [] (recNaive (-86340)) 0 (-86340) rfl (by decide)).1⟩

/-- Claim C5.  On the empty batch both variants produce a summary with
`total = 0` and every percentage equal to `0` (the `if total > 0`
guard); on a non-empty batch each percentage is
`round(count / total * 100, 1)`. -/
theorem c5_percentages (now : ℤ) :
    (computeAnalyticsStd [] now = some (analyticsCore [] 0) ∧
     computeAnalyticsFA [] now = some (analyticsCore [] 0) ∧
     (analyticsCore [] 0).total_reactions = 0 ∧
     summaryOf (analyticsCore [] 0) = ⟨0, 0, 0⟩) ∧
    (∀ (l : List Record) (a : Analytics), l ≠ [] →
      computeAnalyticsStd l now = some a →
      summaryOf a =
        ⟨round1 ((a.cinematic_count : ℚ) / (a.total_reactions : ℚ) * 100),
         round1 ((a.anime_count : ℚ) / (a.total_reactions : ℚ) * 100),
         round1 ((a.with_sref_codes : ℚ) / (a.total_reactions : ℚ) * 100)⟩) := by
  refine ⟨⟨rfl, rfl, rfl, rfl⟩, ?_⟩
  intro l a hne h
  unfold computeAnalyticsStd at h
  rcases hr : recent24hStd l now with _ | n <;> rw [hr] at h
  · cases h
  · simp only [Option.map_some'] at h
    obtain rfl : analyticsCore l n = a := Option.some_injective _ h
    have hpos : 0 < l.length := List.length_pos.mpr hne
    simp [summaryOf, analyticsCore, hpos]

/-- Claim C5, witness: a two-record batch where the cinematic share is
50 percent. -/
theorem c5_percentages_witness :
    ([recCin, recAbsent] ≠ ([] : List Record)) ∧
    computeAnalyticsStd [recCin, recAbsent] 0 =
      some (analyticsCore [recCin, recAbsent] 0) ∧
    summaryOf (analyticsCore [recCin, recAbsent] 0) =
      ⟨round1 (((analyticsCore [recCin, recAbsent] 0).cinematic_count : ℚ) /
          ((analyticsCore [recCin, recAbsent] 0).total_reactions : ℚ) * 100),
       round1 (((analyticsCore [recCin, recAbsent] 0).anime_count : ℚ) /
          ((analyticsCore [recCin, recAbsent] 0).total_reactions : ℚ) * 100),
       round1 (((analyticsCore [recCin, recAbsent] 0).with_sref_codes : ℚ) /
          ((analyticsCore [recCin, recAbsent] 0).total_reactions : ℚ) * 100)⟩ :=
  ⟨by simp, rfl, (c5_percentages 0).2 [recCin, recAbsent] _ (by simp) rfl⟩

/-- Equality of two analytics dicts in the sense of Python dict
equality: all scalar counts equal, the `shot_types` mappings equal as
key-to-count maps (insertion order irrelevant), and the derived
percentage summaries equal. -/
def Analytics.equivalent (a b : Analytics) : Prop :=
  a.total_reactions = b.total_reactions ∧
  a.with_images = b.with_images ∧
  a.cinematic_count = b.cinematic_count ∧
  a.anime_count = b.anime_count ∧
  a.with_sref_codes = b.with_sref_codes ∧
  (∀ k, dictFind a.shot_types k = dictFind b.shot_types k) ∧
  a.recent_24h = b.recent_24h ∧
  summaryOf a = summaryOf b

/-- The same, lifted to possibly-aborted computations: both abort, or
both produce equivalent analytics. -/
def OptAnalytics.equivalent : Option Analytics → Option Analytics → Prop
  | none, none => True
  | some a, some b => a.equivalent b
  | _, _ => False

lemma analyticsCore_perm {l1 l2 : List Record} (h : l1.Perm l2) (n : Nat) :
    (analyticsCore l1 n).equivalent (analyticsCore l2 n) := by
  have hfi : ∀ p : Record → Bool, (l1.filter p).length = (l2.filter p).length := by
    intro p
    rw [← List.countP_eq_length_filter, ← List.countP_eq_length_filter, h.countP_eq]
  refine ⟨h.length_eq, hfi _, hfi _, hfi _, hfi _, ?_, rfl, ?_⟩
  · intro k
    show dictFind (buildShotTypes l1) k = dictFind (buildShotTypes l2) k
    rw [buildShotTypes_find, buildShotTypes_find]
    have hc : countShot l1 k = countShot l2 k := h.countP_eq _
    rw [hc]
  · show summaryOf (analyticsCore l1 n) = summaryOf (analyticsCore l2 n)
    simp only [summaryOf, analyticsCore]
    rw [h.length_eq, hfi (fun r => r.cinematic), hfi (fun r => r.anime),
      hfi (fun r => r.sref_code)]

/-- Claim C9.  The analytics aggregation is permutation-invariant in
both variants: permuting the fetched records yields the same totals,
the same per-field counts, the same `shot_types` mapping (as a map; the
assoc-list insertion order may differ), the same `recent_24h` and the
same percentages — and when the computation aborts on one ordering it
aborts on every ordering. -/
theorem c9_perm_invariant (l1 l2 : List Record) (now : ℤ) (h : l1.Perm l2) :
    OptAnalytics.equivalent (computeAnalyticsStd l1 now) (computeAnalyticsStd l2 now) ∧
    OptAnalytics.equivalent (computeAnalyticsFA l1 now) (computeAnalyticsFA l2 now) := by
  have hG : (l1.countP fun r => r.timestamp.naiveGt (now - 86400)) =
      l2.countP fun r => r.timestamp.naiveGt (now - 86400) := h.countP_eq _
  constructor
  · have hA : l1.countP (fun r => r.timestamp.isAware) =
        l2.countP (fun r => r.timestamp.isAware) := h.countP_eq _
    simp only [computeAnalyticsStd, recent24hStd_char, ← hA, ← hG]
    by_cases h0 : l1.countP (fun r => r.timestamp.isAware) = 0
    · simpa [h0, OptAnalytics.equivalent] using analyticsCore_perm h _
    · simp [h0, OptAnalytics.equivalent]
  · have hB : l1.countP (fun r => r.timestamp.abortsFA) =
        l2.countP (fun r => r.timestamp.abortsFA) := h.countP_eq _
    simp only [computeAnalyticsFA, recent24hFA_char, ← hB, ← hG]
    by_cases h0 : l1.countP (fun r => r.timestamp.abortsFA) = 0
    · simpa [h0, OptAnalytics.equivalent] using analyticsCore_perm h _
    · simp [h0, OptAnalytics.equivalent]

/-- Claim C9, witness: swapping a two-record batch. -/
theorem c9_perm_invariant_witness :
    OptAnalytics.equivalent (computeAnalyticsStd [recCin, recShot "wide"] 0)
      (computeAnalyticsStd [recShot "wide", recCin] 0) :=
  (c9_perm_invariant [recCin, recShot "wide"] [recShot "wide", recCin] 0
    (List.Perm.swap _ _ _)).1

/-- Claim C10.  Whenever either variant produces an analytics dict,
every per-field count and `recent_24h` is at most `total_reactions`,
every count stored in `shot_types` is at least one, and the counts in
`shot_types` sum to at most `total_reactions`. -/
theorem c10_bounds (l : List Record) (now : ℤ) (a : Analytics)
    (h : computeAnalyticsStd l now = some a ∨ computeAnalyticsFA l now = some a) :
    a.with_images ≤ a.total_reactions ∧
    a.cinematic_count ≤ a.total_reactions ∧
    a.anime_count ≤ a.total_reactions ∧
    a.with_sref_codes ≤ a.total_reactions ∧
    a.recent_24h ≤ a.total_reactions ∧
    (∀ p ∈ a.shot_types, 1 ≤ p.2) ∧
    sumVals a.shot_types ≤ a.total_reactions := by
  have key : ∃ n, a = analyticsCore l n ∧ n ≤ l.length := by
    rcases h with h | h
    · unfold computeAnalyticsStd at h
      rcases hr : recent24hStd l now with _ | n <;> rw [hr] at h
      · cases h
      · refine ⟨n, (Option.some_injective _ h).symm, ?_⟩
        rw [recent24hStd_char] at hr
        by_cases h0 : (l.countP fun r => r.timestamp.isAware) = 0
        · rw [if_pos h0] at hr
          obtain rfl : _ = n := Option.some_injective _ hr
          exact List.countP_le_length _
        · rw [if_neg h0] at hr; cases hr
    · unfold computeAnalyticsFA at h
      rcases hr : recent24hFA l now with _ | n <;> rw [hr] at h
      · cases h
      · refine ⟨n, (Option.some_injective _ h).symm, ?_⟩
        rw [recent24hFA_char] at hr
        by_cases h0 : (l.countP fun r => r.timestamp.abortsFA) = 0
        · rw [if_pos h0] at hr
          obtain rfl : _ = n := Option.some_injective _ hr
          exact List.countP_le_length _
        · rw [if_neg h0] at hr; cases hr
  obtain ⟨n, rfl, hn⟩ := key
  refine ⟨List.length_filter_le _ l, List.length_filter_le _ l,
    List.length_filter_le _ l, List.length_filter_le _ l, hn, ?_, ?_⟩
  · exact foldl_shotStep_mem l [] (by simp)
  · show sumVals (buildShotTypes l) ≤ l.length
    unfold buildShotTypes
    rw [foldl_shotStep_sum]
    have : sumVals [] = 0 := rfl
    rw [this, Nat.zero_add]
    exact List.countP_le_length _

/-- Claim C10, witness: a concrete three-record batch with a repeated
shot type. -/
theorem c10_bounds_witness :
    (computeAnalyticsStd [recShot "wide", recShot "wide", recCin] 0 =
        some (analyticsCore [recShot "wide", recShot "wide", recCin] 0) ∨
      computeAnalyticsFA [recShot "wide", recShot "wide", recCin] 0 =
        some (analyticsCore [recShot "wide", recShot "wide", recCin] 0)) ∧
    ((analyticsCore [recShot "wide", recShot "wide", recCin] 0).with_images ≤
        (analyticsCore [recShot "wide", recShot "wide", recCin] 0).total_reactions ∧
      (analyticsCore [recShot "wide", recShot "wide", recCin] 0).cinematic_count ≤
        (analyticsCore [recShot "wide", recShot "wide", recCin] 0).total_reactions ∧
      (analyticsCore [recShot "wide", recShot "wide", recCin] 0).anime_count ≤
        (analyticsCore [recShot "wide", recShot "wide", recCin] 0).total_reactions ∧
      (analyticsCore [recShot "wide", recShot "wide", recCin] 0).with_sref_codes ≤
        (analyticsCore [recShot "wide", recShot "wide", recCin] 0).total_reactions ∧
      (analyticsCore [recShot "wide", recShot "wide", recCin] 0).recent_24h ≤
        (analyticsCore [recShot "wide", recShot "wide", recCin] 0).total_reactions ∧
      (∀ p ∈ (analyticsCore [recShot "wide", recShot "wide", recCin] 0).shot_types,
        1 ≤ p.2) ∧
      sumVals (analyticsCore [recShot "wide", recShot "wide", recCin] 0).shot_types ≤
        (analyticsCore [recShot "wide", recShot "wide", recCin] 0).total_reactions) :=
  ⟨Or.inl rfl,
    c10_bounds [recShot "wide", recShot "wide", recCin] 0 _ (Or.inl rfl)⟩

/-- A network oracle that answers every request with HTTP 200 and a
JSON `null` body. -/
def netOk : HttpRequest → HttpResponse :=
  fun _ => { status := 200, body := some .jnull }

/-- A network oracle that answers every request with HTTP 200 and an
empty (non-JSON) body. -/
def netNoBody : HttpRequest → HttpResponse :=
  fun _ => { status := 200, body := none }

/-- A timestamp-parse model under which no string parses. -/
def isoNone : String → Option PyTime := fun _ => none

/-- Claim C2, evaluation at the failing input.  A tool name outside the
fixed operation set falls through the whole dispatch chain to
`raise HTTPException(400, "Unknown tool: ...")` without any outbound
request (the trace is empty) — the intended InvalidOperation failure.
But `execute_tool` wraps the entire body in `except Exception`, which
catches the `HTTPException` too, so `/call` actually answers HTTP 200
with `success: false`; the HTTP 400 the claim (and the raise) ask for
never reaches the wire. -/
theorem c2_unknown_tool_eval :
    executeTool netOk isoNone 0 { api_token := some "tok" } ⟨"unknown_op", []⟩ =
      ([], { httpStatus := 200, success := false, result := none,
             err := some (.httpEx 400 "Unknown tool: unknown_op") }) := rfl

/-- Claim C3, evaluation at the failing input.  With no `api_token`
argument and no process default, the dispatch stops before any network
call (empty trace) with the intended MissingCredential failure
`HTTPException(400, "API token required")` — but the raise happens
inside the same `try` block, so the caught exception is answered with
HTTP 200 and `success: false`, not HTTP 400. -/
theorem c3_missing_token_eval :
    executeTool netOk isoNone 0 { api_token := none } ⟨"nocodb_list_projects", []⟩ =
      ([], { httpStatus := 200, success := false, result := none,
             err := some (.httpEx 400 "API token required") }) := rfl

/-- The DELETE request shaped by the fastapi `nocodb_delete_record`
branch for string path arguments. -/
def faDelReq (st : MCPState) (tok : JVal) (p t r : String) : HttpRequest :=
  { method := "DELETE",
    url := rstripSlash st.nocodb_url ++ "/api/v1/db/data/noco/" ++ p ++ "/" ++ t
      ++ "/" ++ r,
    headers := faHeaders tok }

/-- The DELETE request shaped by the standard-variant
`nocodb_delete_record` tool. -/
def stdDelReq (ctx : NocoDBContext) (p t r : String) : HttpRequest :=
  { method := "DELETE",
    url := ctx.nocodb_url ++ "/api/v1/db/data/noco/" ++ p ++ "/" ++ t ++ "/" ++ r,
    headers := stdHeaders ctx.api_token }

/-- Claim C6.  When the remote answers a delete with a 2xx status —
regardless of the body, in particular when it is empty — both variants
succeed with the fixed confirmation carrying
`"Record deleted successfully"`, issuing exactly one DELETE request and
never calling `response.json()` (so no parse failure can occur). -/
theorem c6_delete_empty_body (net : HttpRequest → HttpResponse)
    (iso : String → Option PyTime) (now : ℤ) (st : MCPState)
    (ctx : NocoDBContext) (nowIso : String) (tok : JVal) (p t r : String)
    (hfa : 200 ≤ (net (faDelReq st tok p t r)).status ∧
      (net (faDelReq st tok p t r)).status < 300)
    (hfb : (net (faDelReq st tok p t r)).body = none)
    (hsa : 200 ≤ (net (stdDelReq ctx p t r)).status ∧
      (net (stdDelReq ctx p t r)).status < 300)
    (hsb : (net (stdDelReq ctx p t r)).body = none) :
    executeNocodbTool net iso now st "nocodb_delete_record"
        [("project_id", .jstr p), ("table_id", .jstr t), ("record_id", .jstr r)]
        tok =
      ([faDelReq st tok p t r],
        .ok (.jobj [("message", .jstr "Record deleted successfully")])) ∧
    nocodb_delete_record_std net ctx nowIso p t r =
      ([stdDelReq ctx p t r],
        .jobj [("success", .jbool true), ("project_id", .jstr p),
               ("table_id", .jstr t), ("record_id", .jstr r),
               ("message", .jstr "Record deleted successfully"),
               ("timestamp", .jstr nowIso)]) := by
  obtain ⟨-, hfa2⟩ := hfa
  obtain ⟨-, hsa2⟩ := hsa
  constructor
  · have hok : raiseForStatus (net (faDelReq st tok p t r)) = Except.ok () := by
      unfold raiseForStatus
      rw [if_neg (by omega)]
    have hL : executeNocodbTool net iso now st "nocodb_delete_record"
        [("project_id", .jstr p), ("table_id", .jstr t), ("record_id", .jstr r)]
        tok =
        ([faDelReq st tok p t r],
          (raiseForStatus (net (faDelReq st tok p t r))).bind fun _ =>
            Except.ok (JVal.jobj [("message", JVal.jstr "Record deleted successfully")])) :=
      rfl
    rw [hL, hok]
    rfl
  · have hok : raiseForStatus (net (stdDelReq ctx p t r)) = Except.ok () := by
      unfold raiseForStatus
      rw [if_neg (by omega)]
    have hL2 : nocodb_delete_record_std net ctx nowIso p t r =
        ([stdDelReq ctx p t r],
          match raiseForStatus (net (stdDelReq ctx p t r)) with
          | .ok _ =>
            JVal.jobj [("success", JVal.jbool true), ("project_id", JVal.jstr p),
              ("table_id", JVal.jstr t), ("record_id", JVal.jstr r),
              ("message", JVal.jstr "Record deleted successfully"),
              ("timestamp", JVal.jstr nowIso)]
          | .error e =>
            JVal.jobj [("success", JVal.jbool false),
              ("error", JVal.jstr ("Failed to delete record: " ++ e.pymsg))]) := rfl
    rw [hL2, hok]

/-- Claim C6, witness: a service answering HTTP 200 with an empty
body. -/
theorem c6_delete_empty_body_witness :
    (200 ≤ (netNoBody (faDelReq {} (.jstr "tok") "p1" "t1" "r1")).status ∧
      (netNoBody (faDelReq {} (.jstr "tok") "p1" "t1" "r1")).status < 300) ∧
    executeNocodbTool netNoBody isoNone 0 {} "nocodb_delete_record"
        [("project_id", .jstr "p1"), ("table_id", .jstr "t1"),
         ("record_id", .jstr "r1")] (.jstr "tok") =
      ([faDelReq {} (.jstr "tok") "p1" "t1" "r1"],
        .ok (.jobj [("message", .jstr "Record deleted successfully")])) :=
  ⟨⟨by decide, by decide⟩,
    (c6_delete_empty_body netNoBody isoNone 0 {} ⟨"u", "tk"⟩ "ts" (.jstr "tok")
      "p1" "t1" "r1" ⟨by decide, by decide⟩ rfl ⟨by decide, by decide⟩ rfl).1⟩

/-- Claim C7.  A `get_records` call supplying `project_id` and
`table_id` but neither `limit` nor `offset` issues exactly one GET
request whose query parameters are `limit=10` and `offset=0`, in both
variants (the fastapi branch through `args.get` defaults, the standard
tool through its Python default arguments). -/
theorem c7_get_records_defaults (net : HttpRequest → HttpResponse)
    (iso : String → Option PyTime) (now : ℤ) (st : MCPState)
    (ctx : NocoDBContext) (nowIso : String) (tok : JVal) (p t : String) :
    (executeNocodbTool net iso now st "nocodb_get_records"
        [("project_id", .jstr p), ("table_id", .jstr t)] tok).1 =
      [{ method := "GET",
         url := rstripSlash st.nocodb_url ++ "/api/v1/db/data/noco/" ++ p ++ "/" ++ t,
         params := [("limit", .jnum 10), ("offset", .jnum 0)],
         jsonBody := none, headers := faHeaders tok }] ∧
    (nocodb_get_records_std net ctx nowIso p t).1 =
      [{ method := "GET",
         url := ctx.nocodb_url ++ "/api/v1/db/data/noco/" ++ p ++ "/" ++ t,
         params := [("limit", .jnum 10), ("offset", .jnum 0)],
         jsonBody := none, headers := stdHeaders ctx.api_token }] :=
  ⟨rfl, rfl⟩

/-- Claim C8.  Acquiring a session returns the stored session unchanged
when it exists and is open; when it is absent or closed, a fresh
session with total timeout 30 and open state is created, stored and
returned.  Releasing closes an open session and is an idempotent no-op
on an absent or already-closed one.  (The logic is verbatim identical
in `MCPState.get_session` / `close` and
`NocoDBContext.get_session` / `close_session`.) -/
theorem c8_session_lifecycle :
    (∀ (s : Session) (fresh : Nat), s.closed = false →
      get_session (some s) fresh = (s, some s)) ∧
    (∀ fresh : Nat, get_session none fresh =
      (⟨fresh, 30, false⟩, some ⟨fresh, 30, false⟩)) ∧
    (∀ (s : Session) (fresh : Nat), s.closed = true →
      get_session (some s) fresh = (⟨fresh, 30, false⟩, some ⟨fresh, 30, false⟩)) ∧
    (∀ s : Session, s.closed = false →
      close_session (some s) = some { s with closed := true }) ∧
    close_session none = none ∧
    (∀ s : Session, s.closed = true → close_session (some s) = some s) ∧
    (∀ st : Option Session, close_session (close_session st) = close_session st) := by
  refine ⟨?_, ?_, ?_, ?_, rfl, ?_, ?_⟩
  · intro s fresh h; simp [get_session, h]
  · intro fresh; rfl
  · intro s fresh h; simp [get_session, h]
  · intro s h; simp [close_session, h]
  · intro s h; simp [close_session, h]
  · intro st
    rcases st with _ | s
    · rfl
    · by_cases h : s.closed <;> simp [close_session, h]

/-- Claim C8, witness: a concrete open session is reused as-is, then
closed in place. -/
theorem c8_session_lifecycle_witness :
    ((⟨7, 30, false⟩ : Session).closed = false) ∧
    get_session (some ⟨7, 30, false⟩) 9 = (⟨7, 30, false⟩, some ⟨7, 30, false⟩) ∧
    close_session (some ⟨7, 30, false⟩) = some ⟨7, 30, true⟩ :=
  ⟨rfl, c8_session_lifecycle.1 ⟨7, 30, false⟩ 9 rfl,
    c8_session_lifecycle.2.2.2.1 ⟨7, 30, false⟩ rfl⟩

end NocoDBMCP
